import Mathlib

/-!
Shallow embedding of the scoring / achievement / streak engine of the
hostel_pulse repository (src/accounts/data_sync_service.py and
src/accounts/mongodb_models.py), with theorems settling the spec claims.

Python dicts are modelled explicitly: for the score calculator the input
dict may lack a key, hold null, or hold a value, so each field is an
`Option (Option _)` (`none` = key absent, `some none` = key present with
null, `some (some v)` = value `v`).  A Python `TypeError` raised by
comparing null with a number is modelled by an `Option` result being
`none`.  Real-number division is modelled exactly over `ℚ`; calendar days
are modelled as integers (day numbers), so "yesterday" is `today - 1`;
time-of-day strings "HH:MM" are represented by their hour, the only part
the code ever reads (via int on the text before the colon).
-/

namespace HostelPulse

/-- Python `d.get(key, default)`: the default applies only when the key is
absent; a present null is returned as-is. -/
def dictGet {α : Type} (x : Option (Option α)) (d : α) : Option α :=
  match x with
  | none => some d
  | some v => v

/-- Input dict of calculate_balance_score.  Each field is
`none` (key absent), `some none` (null) or `some (some v)`. -/
structure ScoreInput where
  sleep_hours : Option (Option ℚ)
  step_count : Option (Option ℤ)
  active_minutes : Option (Option ℤ)
  classes_total : Option (Option ℤ)
  classes_attended : Option (Option ℤ)
deriving DecidableEq

/-- Sleep contribution (data_sync_service.py lines 26-34).  The code reads
get("sleep_hours", 0) and tests the result for truthiness, so null and the
value 0 both contribute nothing; any other value outside [6,10] costs 10. -/
def sleepContrib (w : ScoreInput) : ℤ :=
  match dictGet w.sleep_hours 0 with
  | none => 0
  | some h =>
    if h = 0 then 0
    else if 7 ≤ h ∧ h ≤ 9 then 30
    else if 6 ≤ h ∧ h ≤ 10 then 15
    else -10

/-- Step contribution (lines 36-43).  A null step_count flows into an
integer comparison and raises TypeError, modelled by `none`. -/
def stepContrib (w : ScoreInput) : Option ℤ :=
  match dictGet w.step_count 0 with
  | none => none
  | some n =>
    some (if 10000 ≤ n then 25 else if 5000 ≤ n then 15 else if 2000 ≤ n then 5 else 0)

/-- Class-attendance contribution (lines 45-55).  When classes_total is not
positive the rate is never computed, so a null classes_attended is harmless
there; otherwise a null in either field raises TypeError. -/
def classContrib (w : ScoreInput) : Option ℤ :=
  match dictGet w.classes_total 0 with
  | none => none
  | some t =>
    if 0 < t then
      match dictGet w.classes_attended 0 with
      | none => none
      | some a =>
        some (if 9/10 ≤ (a : ℚ) / (t : ℚ) then 25
              else if 7/10 ≤ (a : ℚ) / (t : ℚ) then 15
              else if 5/10 ≤ (a : ℚ) / (t : ℚ) then 5 else 0)
    else some 0

/-- Active-minutes contribution (lines 57-62). -/
def activeContrib (w : ScoreInput) : Option ℤ :=
  match dictGet w.active_minutes 0 with
  | none => none
  | some n =>
    some (if 30 ≤ n then 20 else if 15 ≤ n then 10 else 0)

/-- The running total of calculate_balance_score before the final clamp:
base 50 plus the four contributions in source order, or `none` as soon as a
comparison raised (the Python exception propagates). -/
def balanceScoreRaw (w : ScoreInput) : Option ℤ :=
  (stepContrib w).bind (fun s =>
    (classContrib w).bind (fun c =>
      (activeContrib w).bind (fun a =>
        some (50 + sleepContrib w + s + c + a))))

/-- calculate_balance_score (data_sync_service.py lines 14-64): the raw sum
clamped into [0,100] by min(100, max(0, score)). -/
def calculate_balance_score (w : ScoreInput) : Option ℤ :=
  (balanceScoreRaw w).map (fun s => min 100 (max 0 s))

/-- A wellness history document as read back from the store.  Every document
written by save_wellness_data carries all keys, so each field is a value or
null (`none`). -/
structure DayRecord where
  date : ℤ
  sleep_hours : Option ℚ
  waketime : Option ℕ
  bedtime : Option ℕ
  step_count : Option ℤ
  active_minutes : Option ℤ
  classes_attended : Option ℤ
  classes_total : Option ℤ
  balance_score : Option ℤ
deriving DecidableEq

/-- The seven fixed achievement ids (mongodb_models.py ACHIEVEMENTS). -/
inductive AchId where
  | early_bird
  | step_master
  | study_buddy
  | zen_master
  | night_owl_recovery
  | fitness_streak
  | perfect_week
deriving DecidableEq

/-- Per-achievement persisted state (the fields the engine reads/writes). -/
structure AchState where
  unlocked : Bool
  unlocked_date : Option ℤ
  progress : ℕ
deriving DecidableEq

/-- The achievements collection for one user, after initialization. -/
abbrev AchMap := AchId → AchState

/-- State written by initialize_user_achievements on first insert. -/
def freshAchState : AchState :=
  { unlocked := false, unlocked_date := none, progress := 0 }

/-- initialize_user_achievements (mongodb_models.py lines 154-173): a
setOnInsert upsert, so existing rows are kept and missing ones are created
with unlocked false and progress 0. -/
def init_user_achievements (store : AchId → Option AchState) : AchMap :=
  fun a => (store a).getD freshAchState

/-- unlock_achievement (mongodb_models.py lines 182-193): unconditionally
sets unlocked and overwrites unlocked_date with the current time, leaving
progress untouched. -/
def unlock_achievement (now : ℤ) (m : AchMap) (a : AchId) : AchMap :=
  fun b => if b = a then { m a with unlocked := true, unlocked_date := some now } else m b

/-- update_achievement_progress (mongodb_models.py lines 196-206): sets only
the progress field. -/
def update_achievement_progress (m : AchMap) (a : AchId) (p : ℕ) : AchMap :=
  fun b => if b = a then { m b with progress := p } else m b

/-- Loop of check_early_bird (data_sync_service.py lines 142-156): a day with
a falsy waketime is skipped (the loop continues); only a present waketime
with hour at least 8 breaks the loop. -/
def earlyBirdCount : List DayRecord → ℕ
  | [] => 0
  | d :: rest =>
    match d.waketime with
    | none => earlyBirdCount rest
    | some h => if h < 8 then earlyBirdCount rest + 1 else 0

/-- check_early_bird: always writes progress, unlocks when the count reaches 5. -/
def check_early_bird (now : ℤ) (h : List DayRecord) (m : AchMap) : Option AchMap :=
  let c := earlyBirdCount h
  let m1 := update_achievement_progress m AchId.early_bird c
  some (if 5 ≤ c then unlock_achievement now m1 AchId.early_bird else m1)

/-- Loop of check_step_master (lines 159-164), in Python evaluation order: a
null step_count raises TypeError (`none`); a day with at least 10000 steps
unlocks and breaks before later days are read. -/
def stepMasterHit : List DayRecord → Option Bool
  | [] => some false
  | d :: rest =>
    match d.step_count with
    | none => none
    | some n => if 10000 ≤ n then some true else stepMasterHit rest

/-- check_step_master: the unlock happens inside the loop, before any later
day could raise. -/
def check_step_master (now : ℤ) (h : List DayRecord) (m : AchMap) : Option AchMap :=
  match stepMasterHit h with
  | none => none
  | some true => some (unlock_achievement now m AchId.step_master)
  | some false => some m

/-- Python equality between possibly-null ints: it never raises, and null
equals only null. -/
def optEq (a b : Option ℤ) : Bool :=
  match a, b with
  | none, none => true
  | some x, some y => x == y
  | _, _ => false

/-- One day of the study_buddy generator (lines 172-175), with the Python
short-circuit: attended == total is evaluated first and never raises; the
comparison total > 0 runs only when the first conjunct was true, and raises
on null. -/
def studyDayOk (d : DayRecord) : Option Bool :=
  if optEq d.classes_attended d.classes_total then
    match d.classes_total with
    | none => none
    | some t => some (decide (0 < t))
  else some false

/-- Short-circuiting all(...) over a generator whose body may raise. -/
def allOpt (p : DayRecord → Option Bool) : List DayRecord → Option Bool
  | [] => some true
  | d :: rest =>
    match p d with
    | none => none
    | some false => some false
    | some true => allOpt p rest

/-- check_study_buddy (lines 167-178): needs at least 7 days, then perfect
attendance over the 7 most recent. -/
def check_study_buddy (now : ℤ) (h : List DayRecord) (m : AchMap) : Option AchMap :=
  if h.length < 7 then some m
  else
    match allOpt studyDayOk (h.take 7) with
    | none => none
    | some true => some (unlock_achievement now m AchId.study_buddy)
    | some false => some m

/-- Loop of check_zen_master (lines 181-192): a null balance_score raises
when reached; a score below 80 breaks first. -/
def zenCount : List DayRecord → Option ℕ
  | [] => some 0
  | d :: rest =>
    match d.balance_score with
    | none => none
    | some b => if 80 ≤ b then (zenCount rest).map (fun c => c + 1) else some 0

/-- check_zen_master: the count runs before any write, so an exception there
leaves the store untouched. -/
def check_zen_master (now : ℤ) (h : List DayRecord) (m : AchMap) : Option AchMap :=
  match zenCount h with
  | none => none
  | some c =>
    let m1 := update_achievement_progress m AchId.zen_master c
    some (if 3 ≤ c then unlock_achievement now m1 AchId.zen_master else m1)

/-- Loop of check_night_owl_recovery (lines 195-209): same shape as the
early-bird loop, on bedtime with threshold hour 23. -/
def nightOwlCount : List DayRecord → ℕ
  | [] => 0
  | d :: rest =>
    match d.bedtime with
    | none => nightOwlCount rest
    | some hh => if hh < 23 then nightOwlCount rest + 1 else 0

/-- check_night_owl_recovery: always writes progress, unlocks at 3. -/
def check_night_owl_recovery (now : ℤ) (h : List DayRecord) (m : AchMap) : Option AchMap :=
  let c := nightOwlCount h
  let m1 := update_achievement_progress m AchId.night_owl_recovery c
  some (if 3 ≤ c then unlock_achievement now m1 AchId.night_owl_recovery else m1)

/-- One day of the fitness_streak generator: get("step_count", 0) >= 5000,
raising on null. -/
def fitnessDayOk (d : DayRecord) : Option Bool :=
  d.step_count.map (fun n => decide (5000 ≤ n))

/-- check_fitness_streak (lines 212-220). -/
def check_fitness_streak (now : ℤ) (h : List DayRecord) (m : AchMap) : Option AchMap :=
  if h.length < 7 then some m
  else
    match allOpt fitnessDayOk (h.take 7) with
    | none => none
    | some true => some (unlock_achievement now m AchId.fitness_streak)
    | some false => some m

/-- One day of the perfect_week generator: get("balance_score", 0) >= 70,
raising on null. -/
def perfectDayOk (d : DayRecord) : Option Bool :=
  d.balance_score.map (fun b => decide (70 ≤ b))

/-- check_perfect_week (lines 223-231). -/
def check_perfect_week (now : ℤ) (h : List DayRecord) (m : AchMap) : Option AchMap :=
  if h.length < 7 then some m
  else
    match allOpt perfectDayOk (h.take 7) with
    | none => none
    | some true => some (unlock_achievement now m AchId.perfect_week)
    | some false => some m

/-- Sequencing of the checks inside update_achievements: an exception in one
check propagates (later checks never run), but store writes already made
persist.  The Bool flag records whether an exception escaped the run. -/
def runChecks : List (AchMap → Option AchMap) → AchMap → AchMap × Bool
  | [], m => (m, false)
  | c :: cs, m =>
    match c m with
    | none => (m, true)
    | some m1 => runChecks cs m1

/-- The seven checks in source order (data_sync_service.py lines 132-139). -/
def checksList (now : ℤ) (h : List DayRecord) : List (AchMap → Option AchMap) :=
  [check_early_bird now h, check_step_master now h, check_study_buddy now h,
   check_zen_master now h, check_night_owl_recovery now h,
   check_fitness_streak now h, check_perfect_week now h]

/-- update_achievements (lines 116-139): initialize lazily, return early on
an empty history, otherwise run the seven checks in order.  The history
list and the evaluation timestamp are parameters here. -/
def update_achievements (now : ℤ) (store : AchId → Option AchState)
    (h : List DayRecord) : AchMap × Bool :=
  let m0 := init_user_achievements store
  match h with
  | [] => (m0, false)
  | _ => runChecks (checksList now h) m0

/-- The condition under which each check unlocks its achievement, read off
the seven check bodies. -/
def achCriterion (a : AchId) (h : List DayRecord) : Bool :=
  match a with
  | AchId.early_bird => decide (5 ≤ earlyBirdCount h)
  | AchId.step_master => stepMasterHit h == some true
  | AchId.study_buddy =>
      decide (7 ≤ h.length) && (allOpt studyDayOk (h.take 7) == some true)
  | AchId.zen_master =>
      match zenCount h with
      | some c => decide (3 ≤ c)
      | none => false
  | AchId.night_owl_recovery => decide (3 ≤ nightOwlCount h)
  | AchId.fitness_streak =>
      decide (7 ≤ h.length) && (allOpt fitnessDayOk (h.take 7) == some true)
  | AchId.perfect_week =>
      decide (7 ≤ h.length) && (allOpt perfectDayOk (h.take 7) == some true)

/-- Persisted streak state (daily_streaks collection). -/
structure StreakState where
  current_streak : ℤ
  longest_streak : ℤ
  last_sync_date : ℤ
deriving DecidableEq

/-- update_streak (data_sync_service.py lines 234-270) combined with the
store write update_user_streak, as a pure function from the previously
stored state and the current day to the state stored afterwards. -/
def update_streak : Option StreakState → ℤ → StreakState
  | none, today => { current_streak := 1, longest_streak := 1, last_sync_date := today }
  | some s, today =>
    if s.last_sync_date = today then s
    else
      let cur := if s.last_sync_date = today - 1 then s.current_streak + 1 else 1
      let lng := if s.longest_streak < cur then cur else s.longest_streak
      { current_streak := cur, longest_streak := lng, last_sync_date := today }

/-- Sleep block returned by get_sleep_data on success. -/
structure SleepData where
  sleep_hours : ℚ
  bedtime : ℕ
  waketime : ℕ
deriving DecidableEq

/-- Return value of sync_fitness_data: always a dict with these keys; each
provider call yields null on failure (no credentials or API error). -/
structure FitnessData where
  sleep_data : Option SleepData
  step_count : Option ℤ
  active_minutes : Option ℤ
deriving DecidableEq

/-- Return value of calculate_attendance: always plain integers. -/
structure AttendanceData where
  classes_total : ℤ
  classes_attended : ℤ
deriving DecidableEq

/-- The daily record assembled and saved by sync_user_data. -/
structure DailyOut where
  date : ℤ
  sleep_hours : Option ℚ
  step_count : Option ℤ
  active_minutes : Option ℤ
  classes_attended : ℤ
  classes_total : ℤ
  balance_score : ℤ
deriving DecidableEq

/-- sync_user_data (data_sync_service.py lines 67-113), from assembling the
wellness dict through computing the balance score.  Every key is present in
the dict, so provider nulls flow into calculate_balance_score; the
TypeError raised there is swallowed by the broad except, which prints and
returns None: no record is produced or saved and the caller learns nothing
beyond the None. -/
def sync_user_data (today : ℤ) (fd : FitnessData) (att : AttendanceData) :
    Option DailyOut :=
  let w : ScoreInput :=
    { sleep_hours := some (fd.sleep_data.map SleepData.sleep_hours),
      step_count := some fd.step_count,
      active_minutes := some fd.active_minutes,
      classes_total := some (some att.classes_total),
      classes_attended := some (some att.classes_attended) }
  (calculate_balance_score w).map (fun sc =>
    { date := today,
      sleep_hours := fd.sleep_data.map SleepData.sleep_hours,
      step_count := fd.step_count,
      active_minutes := fd.active_minutes,
      classes_attended := att.classes_attended,
      classes_total := att.classes_total,
      balance_score := sc })

/-- Formalization of the C2 claim wording, for comparison with the code:
the count stops at the first day that has no waketime or whose hour is at
least 8. -/
def specEarlyBirdCount : List DayRecord → ℕ
  | [] => 0
  | d :: rest =>
    match d.waketime with
    | none => 0
    | some h => if h < 8 then specEarlyBirdCount rest + 1 else 0

/-- Formalization of the spec wording "history sorted descending by date",
used to exhibit unsorted inputs for C3. -/
def specSortedDesc : List DayRecord → Bool
  | [] => true
  | [_] => true
  | a :: b :: rest => decide (b.date ≤ a.date) && specSortedDesc (b :: rest)

/-! Concrete fixtures used by counterexamples and witnesses. -/

/-- A score input whose only present field is sleep_hours, holding `q`. -/
def onlySleep (q : ℚ) : ScoreInput :=
  { sleep_hours := some (some q), step_count := none, active_minutes := none,
    classes_total := none, classes_attended := none }

/-- A score input with every key absent. -/
def allAbsentInput : ScoreInput :=
  { sleep_hours := none, step_count := none, active_minutes := none,
    classes_total := none, classes_attended := none }

/-- A score input with every key present but null. -/
def allNullInput : ScoreInput :=
  { sleep_hours := some none, step_count := some none, active_minutes := some none,
    classes_total := some none, classes_attended := some none }

/-- The maximal record of the spec: sleep 8, 10000 steps, 30 active
minutes, 10 of 10 classes. -/
def maxInput : ScoreInput :=
  { sleep_hours := some (some 8), step_count := some (some 10000),
    active_minutes := some (some 30), classes_total := some (some 10),
    classes_attended := some (some 10) }

/-- A history day with benign values everywhere and no null numeric field. -/
def mkDay (date : ℤ) : DayRecord :=
  { date := date, sleep_hours := none, waketime := none, bedtime := none,
    step_count := some 0, active_minutes := some 0,
    classes_attended := some 0, classes_total := some 0,
    balance_score := some 0 }

/-- A day without a waketime. -/
def dayNoWake : DayRecord := mkDay 0

/-- A day whose waketime hour is 7. -/
def dayWake7 : DayRecord := { mkDay (-1) with waketime := some 7 }

/-- A day with 10000 steps, dated 1. -/
def dayStep10k : DayRecord := { mkDay 1 with step_count := some 10000 }

/-- A day with 0 steps, dated 2: listed after dayStep10k it yields a history
whose dates ascend, violating the descending-sort requirement. -/
def dayStep0 : DayRecord := mkDay 2

/-- Replace the date of a history record, leaving every other field alone.
Used to state that the evaluator never reads the dates. -/
def setDate (r : DayRecord) (d : ℤ) : DayRecord := { r with date := d }

/-- An achievements store with no rows yet. -/
def emptyStore : AchId → Option AchState := fun _ => none

/-- An achievements map with every row fresh. -/
def freshMap : AchMap := fun _ => freshAchState

/-- A store in which step_master is already unlocked at time 2. -/
def storeUnlockedStep : AchId → Option AchState :=
  fun a =>
    if a = AchId.step_master then
      some { unlocked := true, unlocked_date := some 2, progress := 0 }
    else none

end HostelPulse

namespace HostelPulse

/-! Helper lemmas about the score calculator. -/

theorem dictGet_eq_none {α : Type} (x : Option (Option α)) (d : α) :
    dictGet x d = none ↔ x = some none := by
  cases x with
  | none => simp [dictGet]
  | some v => cases v <;> simp [dictGet]

theorem sleepContrib_lb (w : ScoreInput) : -10 ≤ sleepContrib w := by
  unfold sleepContrib
  split
  · norm_num
  · split_ifs <;> norm_num

theorem stepContrib_some_lb (w : ScoreInput) (v : ℤ)
    (hv : stepContrib w = some v) : 0 ≤ v := by
  unfold stepContrib at hv
  split at hv
  · cases hv
  · injection hv with hv
    subst hv
    split_ifs <;> norm_num

theorem classContrib_some_lb (w : ScoreInput) (v : ℤ)
    (hv : classContrib w = some v) : 0 ≤ v := by
  unfold classContrib at hv
  split at hv
  · cases hv
  · split at hv
    · split at hv
      · cases hv
      · injection hv with hv
        subst hv
        split_ifs <;> norm_num
    · injection hv with hv
      omega

theorem activeContrib_some_lb (w : ScoreInput) (v : ℤ)
    (hv : activeContrib w = some v) : 0 ≤ v := by
  unfold activeContrib at hv
  split at hv
  · cases hv
  · injection hv with hv
    subst hv
    split_ifs <;> norm_num

theorem stepContrib_isSome (w : ScoreInput) (h1 : w.step_count ≠ some none) :
    ∃ v, stepContrib w = some v := by
  unfold stepContrib
  split
  · rename_i hd
    exact absurd ((dictGet_eq_none _ _).mp hd) h1
  · exact ⟨_, rfl⟩

theorem activeContrib_isSome (w : ScoreInput) (h2 : w.active_minutes ≠ some none) :
    ∃ v, activeContrib w = some v := by
  unfold activeContrib
  split
  · rename_i hd
    exact absurd ((dictGet_eq_none _ _).mp hd) h2
  · exact ⟨_, rfl⟩

theorem classContrib_isSome (w : ScoreInput) (h3 : w.classes_total ≠ some none)
    (h4 : w.classes_attended ≠ some none) : ∃ v, classContrib w = some v := by
  unfold classContrib
  split
  · rename_i hd
    exact absurd ((dictGet_eq_none _ _).mp hd) h3
  · split
    · split
      · rename_i hd2
        exact absurd ((dictGet_eq_none _ _).mp hd2) h4
      · exact ⟨_, rfl⟩
    · exact ⟨0, rfl⟩

/-- C1 counterexample input: the C1 claim asserts that a record whose only
present field is sleep_hours = 0 scores 40; the code treats 0 as falsy, adds
no sleep contribution, and returns the base 50. -/
theorem claim_C1_counterexample :
    calculate_balance_score (onlySleep 0) = some 50 ∧
    sleepContrib (onlySleep 0) = 0 ∧
    calculate_balance_score (onlySleep 0) ≠ some 40 :=
  ⟨by decide, by decide, by decide⟩

/-- C1 amended: the -10 sleep contribution applies exactly when sleep_hours
is present, non-null, non-zero and outside [6,10]; a record with only such a
sleep_hours scores 40; and a record whose sleep_hours reads as null or 0
(absent, null, or literally 0) gets no sleep contribution at all. -/
theorem claim_C1_amended (w : ScoreInput) (q : ℚ)
    (hp : dictGet w.sleep_hours 0 = some q) (h0 : q ≠ 0)
    (hout : ¬ (6 ≤ q ∧ q ≤ 10)) :
    sleepContrib w = -10 ∧
    calculate_balance_score (onlySleep q) = some 40 ∧
    ∀ w2 : ScoreInput,
      (dictGet w2.sleep_hours 0 = none ∨ dictGet w2.sleep_hours 0 = some 0) →
        sleepContrib w2 = 0 := by
  have hnarrow : ¬ (7 ≤ q ∧ q ≤ 9) := by
    intro hq
    exact hout ⟨by linarith [hq.1], by linarith [hq.2]⟩
  have hsleep : ∀ w3 : ScoreInput, dictGet w3.sleep_hours 0 = some q →
      sleepContrib w3 = -10 := by
    intro w3 hw3
    unfold sleepContrib
    split
    · rename_i hd
      rw [hd] at hw3
      cases hw3
    · rename_i q2 hd
      rw [hd] at hw3
      injection hw3 with hq
      subst hq
      rw [if_neg h0, if_neg hnarrow, if_neg hout]
  refine ⟨hsleep w hp, ?_, ?_⟩
  · have hc : sleepContrib (onlySleep q) = -10 := hsleep _ rfl
    have hr : balanceScoreRaw (onlySleep q) =
        some (50 + sleepContrib (onlySleep q) + 0 + 0 + 0) := rfl
    rw [hc] at hr
    norm_num at hr
    unfold calculate_balance_score
    rw [hr]
    decide
  · intro w2 hw2
    unfold sleepContrib
    split
    · rfl
    · rename_i q2 hd
      rcases hw2 with hw2 | hw2
      · rw [hd] at hw2
        cases hw2
      · rw [hd] at hw2
        injection hw2 with hq
        subst hq
        rw [if_pos rfl]

/-- C1 witness at sleep_hours = 3. -/
theorem claim_C1_witness :
    sleepContrib (onlySleep 3) = -10 ∧
    calculate_balance_score (onlySleep 3) = some 40 := by
  have h := claim_C1_amended (onlySleep 3) 3 rfl (by norm_num) (by norm_num)
  exact ⟨h.1, h.2.1⟩

/-- C4 counterexample input: a record whose fields are all present but null
makes calculate_balance_score raise a TypeError (None compared with an int),
so it returns no score at all, contradicting both the [0,100] claim and the
base-50 claim for all-null input. -/
theorem claim_C4_counterexample :
    calculate_balance_score allNullInput = none ∧
    calculate_balance_score allNullInput ≠ some 50 :=
  ⟨by decide, by decide⟩

/-- C4 amended: for every record whose numeric fields (step_count,
active_minutes, classes_total, classes_attended) are each absent or
non-null, calculate_balance_score returns an integer in [0,100]; with every
key absent it returns the base 50, and on the maximal record it returns 100
(clamped from 150).  A null numeric field instead raises a TypeError. -/
theorem claim_C4_amended (w : ScoreInput)
    (h1 : w.step_count ≠ some none) (h2 : w.active_minutes ≠ some none)
    (h3 : w.classes_total ≠ some none) (h4 : w.classes_attended ≠ some none) :
    (∃ v, calculate_balance_score w = some v ∧ 0 ≤ v ∧ v ≤ 100) ∧
    calculate_balance_score allAbsentInput = some 50 ∧
    calculate_balance_score maxInput = some 100 := by
  refine ⟨?_, by decide, ?_⟩
  · obtain ⟨sv, hst⟩ := stepContrib_isSome w h1
    obtain ⟨cv, hcl⟩ := classContrib_isSome w h3 h4
    obtain ⟨av, hac⟩ := activeContrib_isSome w h2
    refine ⟨min 100 (max 0 (50 + sleepContrib w + sv + cv + av)), ?_, ?_, ?_⟩
    · unfold calculate_balance_score balanceScoreRaw
      simp only [hst, hcl, hac, Option.some_bind, Option.map_some']
    · exact le_min (by norm_num) (le_max_left 0 _)
    · exact min_le_left 100 _
  · unfold calculate_balance_score balanceScoreRaw
    norm_num [maxInput, stepContrib, classContrib, activeContrib, sleepContrib, dictGet]

/-- C4 witness at the two concrete records of the spec. -/
theorem claim_C4_witness :
    calculate_balance_score allAbsentInput = some 50 ∧
    calculate_balance_score maxInput = some 100 := by
  have h := claim_C4_amended maxInput (by decide) (by decide) (by decide) (by decide)
  exact ⟨h.2.1, h.2.2⟩

/-- C9: whenever calculate_balance_score returns, the raw sum is already at
least 40 (base 50 minus at most the single -10 sleep penalty), so the lower
clamp to 0 never binds: the returned value is min 100 raw, and is at least
40. -/
theorem claim_C9_lower_bound (w : ScoreInput) (s : ℤ)
    (hs : balanceScoreRaw w = some s) :
    40 ≤ s ∧ calculate_balance_score w = some (min 100 s) := by
  have hraw := hs
  unfold balanceScoreRaw at hraw
  cases hst : stepContrib w with
  | none =>
    rw [hst] at hraw
    simp at hraw
  | some sv =>
    rw [hst] at hraw
    simp only [Option.some_bind] at hraw
    cases hcl : classContrib w with
    | none =>
      rw [hcl] at hraw
      simp at hraw
    | some cv =>
      rw [hcl] at hraw
      simp only [Option.some_bind] at hraw
      cases hac : activeContrib w with
      | none =>
        rw [hac] at hraw
        simp at hraw
      | some av =>
        rw [hac] at hraw
        simp only [Option.some_bind, Option.some.injEq] at hraw
        have l1 := sleepContrib_lb w
        have l2 := stepContrib_some_lb w sv hst
        have l3 := classContrib_some_lb w cv hcl
        have l4 := activeContrib_some_lb w av hac
        refine ⟨by omega, ?_⟩
        unfold calculate_balance_score
        rw [hs]
        simp only [Option.map_some']
        rw [max_eq_right (by omega)]

/-- C9 witness at the spec record with only sleep_hours = 3. -/
theorem claim_C9_witness :
    (40:ℤ) ≤ 40 ∧ calculate_balance_score (onlySleep 3) = some (min 100 40) :=
  claim_C9_lower_bound (onlySleep 3) 40 (by decide)

/-- C8: the code bug.  With the fitness provider failed (no credentials or
API error), sync_fitness_data yields nulls, the present-but-null step_count
defeats the get(_, 0) default, calculate_balance_score raises TypeError and
the broad except makes the sync return None: no record is produced or saved
even though the calendar data (3 of 3 classes) was valid, and the caller
receives nothing usable to decide on a retry. -/
theorem claim_C8_sync_aborts :
    sync_user_data 0
      { sleep_data := none, step_count := none, active_minutes := none }
      { classes_total := 3, classes_attended := 3 } = none := by
  decide

/-! Streak theorems. -/

theorem update_streak_last (e : Option StreakState) (t : ℤ) :
    (update_streak e t).last_sync_date = t := by
  cases e with
  | none => rfl
  | some s =>
    simp only [update_streak]
    by_cases hc : s.last_sync_date = t
    · rw [if_pos hc]
      exact hc
    · rw [if_neg hc]

/-- Explicit form of a non-no-op streak update on an existing state. -/
theorem update_streak_some_ne (s : StreakState) (t : ℤ)
    (hne : s.last_sync_date ≠ t) :
    update_streak (some s) t =
      { current_streak := if s.last_sync_date = t - 1 then s.current_streak + 1 else 1,
        longest_streak :=
          if s.longest_streak <
              (if s.last_sync_date = t - 1 then s.current_streak + 1 else 1)
          then (if s.last_sync_date = t - 1 then s.current_streak + 1 else 1)
          else s.longest_streak,
        last_sync_date := t } := by
  simp only [update_streak]
  rw [if_neg hne]

/-- C6: a sync on a day already synced is a no-op, and the update is
idempotent within a day. -/
theorem claim_C6_idempotent (s : StreakState) (t : ℤ)
    (hst : s.last_sync_date = t) :
    update_streak (some s) t = s ∧
    ∀ e : Option StreakState,
      update_streak (some (update_streak e t)) t = update_streak e t := by
  constructor
  · simp only [update_streak]
    rw [if_pos hst]
  · intro e
    have h := update_streak_last e t
    set r := update_streak e t with hr
    show update_streak (some r) t = r
    simp only [update_streak]
    rw [if_pos h]

/-- C6 witness at the spec example state {current 5, longest 5, last day 100}. -/
theorem claim_C6_witness :
    update_streak (some ⟨5, 5, 100⟩) 100 = ⟨5, 5, 100⟩ :=
  (claim_C6_idempotent ⟨5, 5, 100⟩ 100 rfl).1

/-- C7: when the stored sync date is not today the update writes today and
keeps longest = max(old longest, new current); when it is also not
yesterday (gap of two days or more, or a future date) the current streak
resets to 1. -/
theorem claim_C7_update (s : StreakState) (t : ℤ)
    (hne : s.last_sync_date ≠ t) :
    (s.last_sync_date ≠ t - 1 → (update_streak (some s) t).current_streak = 1) ∧
    (update_streak (some s) t).longest_streak =
      max s.longest_streak (update_streak (some s) t).current_streak ∧
    (update_streak (some s) t).last_sync_date = t := by
  rw [update_streak_some_ne s t hne]
  by_cases hy : s.last_sync_date = t - 1
  · rw [if_pos hy]
    refine ⟨fun h => absurd hy h, ?_, rfl⟩
    simp only [max_def]
    split_ifs <;> omega
  · rw [if_neg hy]
    refine ⟨fun _ => rfl, ?_, rfl⟩
    simp only [max_def]
    split_ifs <;> omega

/-- C7 witness: last synced on day 100, syncing on day 102 (a gap) resets
current to 1 and keeps longest 5. -/
theorem claim_C7_witness :
    (update_streak (some ⟨5, 5, 100⟩) 102).current_streak = 1 ∧
    (update_streak (some ⟨5, 5, 100⟩) 102).longest_streak =
      max 5 (update_streak (some ⟨5, 5, 100⟩) 102).current_streak ∧
    (update_streak (some ⟨5, 5, 100⟩) 102).last_sync_date = 102 := by
  have h := claim_C7_update ⟨5, 5, 100⟩ 102 (by decide)
  exact ⟨h.1 (by decide), h.2.1, h.2.2⟩

end HostelPulse

namespace HostelPulse

/-! Helper lemmas about the achievement store operations. -/

theorem unlock_achievement_same (now : ℤ) (m : AchMap) (a : AchId) :
    unlock_achievement now m a a
      = { m a with unlocked := true, unlocked_date := some now } := by
  simp [unlock_achievement]

theorem unlock_achievement_other (now : ℤ) (m : AchMap) (a b : AchId)
    (hb : b ≠ a) : unlock_achievement now m a b = m b := by
  simp [unlock_achievement, hb]

theorem update_achievement_progress_same (m : AchMap) (a : AchId) (p : ℕ) :
    update_achievement_progress m a p a = { m a with progress := p } := by
  simp [update_achievement_progress]

theorem update_achievement_progress_other (m : AchMap) (a : AchId) (p : ℕ)
    (b : AchId) (hb : b ≠ a) : update_achievement_progress m a p b = m b := by
  simp [update_achievement_progress, hb]

theorem unlock_achievement_unlocked (now : ℤ) (m : AchMap) (a b : AchId)
    (h : (m b).unlocked = true) : (unlock_achievement now m a b).unlocked = true := by
  unfold unlock_achievement
  split
  · rfl
  · exact h

theorem update_achievement_progress_unlocked (m : AchMap) (a : AchId) (p : ℕ)
    (b : AchId) :
    (update_achievement_progress m a p b).unlocked = (m b).unlocked := by
  unfold update_achievement_progress
  split
  · rfl
  · rfl

/-! No check ever turns the unlocked flag off. -/

theorem check_early_bird_unlocked (now : ℤ) (hist : List DayRecord)
    (m m1 : AchMap) (b : AchId) (hc : check_early_bird now hist m = some m1)
    (hb : (m b).unlocked = true) : (m1 b).unlocked = true := by
  unfold check_early_bird at hc
  injection hc with hc
  subst hc
  split_ifs
  · exact unlock_achievement_unlocked _ _ _ _
      (by rw [update_achievement_progress_unlocked]; exact hb)
  · rw [update_achievement_progress_unlocked]
    exact hb

theorem check_step_master_unlocked (now : ℤ) (hist : List DayRecord)
    (m m1 : AchMap) (b : AchId) (hc : check_step_master now hist m = some m1)
    (hb : (m b).unlocked = true) : (m1 b).unlocked = true := by
  unfold check_step_master at hc
  split at hc
  · cases hc
  · injection hc with hc
    subst hc
    exact unlock_achievement_unlocked _ _ _ _ hb
  · injection hc with hc
    subst hc
    exact hb

theorem check_study_buddy_unlocked (now : ℤ) (hist : List DayRecord)
    (m m1 : AchMap) (b : AchId) (hc : check_study_buddy now hist m = some m1)
    (hb : (m b).unlocked = true) : (m1 b).unlocked = true := by
  unfold check_study_buddy at hc
  split at hc
  · injection hc with hc
    subst hc
    exact hb
  · split at hc
    · cases hc
    · injection hc with hc
      subst hc
      exact unlock_achievement_unlocked _ _ _ _ hb
    · injection hc with hc
      subst hc
      exact hb

theorem check_zen_master_unlocked (now : ℤ) (hist : List DayRecord)
    (m m1 : AchMap) (b : AchId) (hc : check_zen_master now hist m = some m1)
    (hb : (m b).unlocked = true) : (m1 b).unlocked = true := by
  unfold check_zen_master at hc
  split at hc
  · cases hc
  · injection hc with hc
    subst hc
    split_ifs
    · exact unlock_achievement_unlocked _ _ _ _
        (by rw [update_achievement_progress_unlocked]; exact hb)
    · rw [update_achievement_progress_unlocked]
      exact hb

theorem check_night_owl_recovery_unlocked (now : ℤ) (hist : List DayRecord)
    (m m1 : AchMap) (b : AchId)
    (hc : check_night_owl_recovery now hist m = some m1)
    (hb : (m b).unlocked = true) : (m1 b).unlocked = true := by
  unfold check_night_owl_recovery at hc
  injection hc with hc
  subst hc
  split_ifs
  · exact unlock_achievement_unlocked _ _ _ _
      (by rw [update_achievement_progress_unlocked]; exact hb)
  · rw [update_achievement_progress_unlocked]
    exact hb

theorem check_fitness_streak_unlocked (now : ℤ) (hist : List DayRecord)
    (m m1 : AchMap) (b : AchId) (hc : check_fitness_streak now hist m = some m1)
    (hb : (m b).unlocked = true) : (m1 b).unlocked = true := by
  unfold check_fitness_streak at hc
  split at hc
  · injection hc with hc
    subst hc
    exact hb
  · split at hc
    · cases hc
    · injection hc with hc
      subst hc
      exact unlock_achievement_unlocked _ _ _ _ hb
    · injection hc with hc
      subst hc
      exact hb

theorem check_perfect_week_unlocked (now : ℤ) (hist : List DayRecord)
    (m m1 : AchMap) (b : AchId) (hc : check_perfect_week now hist m = some m1)
    (hb : (m b).unlocked = true) : (m1 b).unlocked = true := by
  unfold check_perfect_week at hc
  split at hc
  · injection hc with hc
    subst hc
    exact hb
  · split at hc
    · cases hc
    · injection hc with hc
      subst hc
      exact unlock_achievement_unlocked _ _ _ _ hb
    · injection hc with hc
      subst hc
      exact hb

/-- Running a list of checks that each preserve a set unlocked flag (both on
success and, via the kept partial state, on an exception) preserves it. -/
theorem runChecks_unlocked (cs : List (AchMap → Option AchMap)) (m : AchMap)
    (b : AchId)
    (hcs : ∀ c ∈ cs, ∀ m2 m3, c m2 = some m3 →
      (m2 b).unlocked = true → (m3 b).unlocked = true)
    (hb : (m b).unlocked = true) :
    ((runChecks cs m).1 b).unlocked = true := by
  induction cs generalizing m with
  | nil => exact hb
  | cons c cs ih =>
    simp only [runChecks]
    cases hc : c m with
    | none => exact hb
    | some m1 =>
      exact ih m1
        (fun c2 h2 => hcs c2 (List.mem_cons_of_mem _ h2))
        (hcs c (List.mem_cons_self _ _) m m1 hc hb)

/-- C5: once an achievement row is stored with unlocked = true, an
evaluation run over any history (including a run that raises part-way)
leaves the flag true: initialization only inserts missing rows, progress
writes leave the flag alone, and unlock_achievement only ever sets it. -/
theorem claim_C5_unlock_monotone (now : ℤ) (store : AchId → Option AchState)
    (hist : List DayRecord) (a : AchId) (st : AchState)
    (hs : store a = some st) (hu : st.unlocked = true) :
    ((update_achievements now store hist).1 a).unlocked = true := by
  have hinit : (init_user_achievements store a).unlocked = true := by
    unfold init_user_achievements
    rw [hs]
    exact hu
  cases hist with
  | nil => exact hinit
  | cons d t =>
    show ((runChecks (checksList now (d :: t))
        (init_user_achievements store)).1 a).unlocked = true
    refine runChecks_unlocked _ _ _ ?_ hinit
    intro c hcmem m2 m3 hcc hbb
    simp only [checksList, List.mem_cons, List.not_mem_nil, or_false] at hcmem
    rcases hcmem with rfl | rfl | rfl | rfl | rfl | rfl | rfl
    · exact check_early_bird_unlocked _ _ _ _ _ hcc hbb
    · exact check_step_master_unlocked _ _ _ _ _ hcc hbb
    · exact check_study_buddy_unlocked _ _ _ _ _ hcc hbb
    · exact check_zen_master_unlocked _ _ _ _ _ hcc hbb
    · exact check_night_owl_recovery_unlocked _ _ _ _ _ hcc hbb
    · exact check_fitness_streak_unlocked _ _ _ _ _ hcc hbb
    · exact check_perfect_week_unlocked _ _ _ _ _ hcc hbb

/-- C5 witness: step_master, already unlocked at time 2, stays unlocked
after an evaluation on a one-day history that satisfies no criterion. -/
theorem claim_C5_witness :
    ((update_achievements 9 storeUnlockedStep [mkDay 0]).1
      AchId.step_master).unlocked = true :=
  claim_C5_unlock_monotone 9 storeUnlockedStep [mkDay 0] AchId.step_master
    { unlocked := true, unlocked_date := some 2, progress := 0 } rfl rfl

end HostelPulse

namespace HostelPulse

/-- The early-bird loop counts the days whose waketime hour is below 8
occurring before the first day whose waketime is present with hour at least
8; days without a waketime are skipped, not stopping points. -/
theorem earlyBirdCount_eq_takeWhile (hist : List DayRecord) :
    earlyBirdCount hist
      = ((hist.filterMap DayRecord.waketime).takeWhile
          (fun x => decide (x < 8))).length := by
  induction hist with
  | nil => rfl
  | cons d t ih =>
    cases hw : d.waketime with
    | none =>
      simp only [earlyBirdCount, hw, List.filterMap_cons_none hw]
      exact ih
    | some hr =>
      have hfm : List.filterMap DayRecord.waketime (d :: t)
          = hr :: List.filterMap DayRecord.waketime t := by
        simp [List.filterMap_cons, hw]
      by_cases h8 : hr < 8 <;>
        simp [earlyBirdCount, hw, hfm, List.takeWhile_cons, h8, ih]

/-- C2 counterexample input: on the history [no-waketime day, waketime 7]
the code writes progress 1 (the missing waketime is skipped), while the
claim says the count stops there, giving 0. -/
theorem claim_C2_counterexample :
    ((check_early_bird 5 [dayNoWake, dayWake7] freshMap).map
        (fun m => (m AchId.early_bird).progress)) = some 1 ∧
    specEarlyBirdCount [dayNoWake, dayWake7] = 0 ∧
    (1 : ℕ) ≠ 0 :=
  ⟨rfl, rfl, by decide⟩

/-- C2 amended: check_early_bird writes as progress the number of days with
waketime hour below 8 occurring before the first day whose waketime hour is
at least 8, where days without any waketime are skipped rather than
stopping the count; it unlocks exactly when that count reaches 5 (an
already-set flag stays set). -/
theorem claim_C2_amended (now : ℤ) (hist : List DayRecord) (m m1 : AchMap)
    (hc : check_early_bird now hist m = some m1) :
    (m1 AchId.early_bird).progress
      = ((hist.filterMap DayRecord.waketime).takeWhile
          (fun x => decide (x < 8))).length ∧
    (m1 AchId.early_bird).unlocked
      = ((m AchId.early_bird).unlocked
          || decide (5 ≤ ((hist.filterMap DayRecord.waketime).takeWhile
              (fun x => decide (x < 8))).length)) := by
  rw [← earlyBirdCount_eq_takeWhile]
  unfold check_early_bird at hc
  injection hc with hc
  subst hc
  split_ifs with h5 <;>
    refine ⟨?_, ?_⟩ <;>
    simp [unlock_achievement, update_achievement_progress, h5]

/-- C2 witness on the two-day history above: progress 1, no unlock. -/
theorem claim_C2_witness :
    ((update_achievement_progress freshMap AchId.early_bird 1)
        AchId.early_bird).progress
      = (([dayNoWake, dayWake7].filterMap DayRecord.waketime).takeWhile
          (fun x => decide (x < 8))).length ∧
    ((update_achievement_progress freshMap AchId.early_bird 1)
        AchId.early_bird).unlocked
      = ((freshMap AchId.early_bird).unlocked
          || decide (5 ≤ (([dayNoWake, dayWake7].filterMap DayRecord.waketime).takeWhile
              (fun x => decide (x < 8))).length)) :=
  claim_C2_amended 5 [dayNoWake, dayWake7] freshMap _ rfl

end HostelPulse

namespace HostelPulse

/-! setDate changes only the date field. -/

theorem setDate_waketime (r : DayRecord) (x : ℤ) :
    (setDate r x).waketime = r.waketime := rfl

theorem setDate_bedtime (r : DayRecord) (x : ℤ) :
    (setDate r x).bedtime = r.bedtime := rfl

theorem setDate_step_count (r : DayRecord) (x : ℤ) :
    (setDate r x).step_count = r.step_count := rfl

theorem setDate_balance_score (r : DayRecord) (x : ℤ) :
    (setDate r x).balance_score = r.balance_score := rfl

theorem studyDayOk_setDate (r : DayRecord) (x : ℤ) :
    studyDayOk (setDate r x) = studyDayOk r := rfl

theorem fitnessDayOk_setDate (r : DayRecord) (x : ℤ) :
    fitnessDayOk (setDate r x) = fitnessDayOk r := rfl

theorem perfectDayOk_setDate (r : DayRecord) (x : ℤ) :
    perfectDayOk (setDate r x) = perfectDayOk r := rfl

/-! None of the scan loops reads the date field. -/

theorem earlyBirdCount_setDate (f : DayRecord → ℤ) (hist : List DayRecord) :
    earlyBirdCount (hist.map (fun r => setDate r (f r))) = earlyBirdCount hist := by
  induction hist with
  | nil => rfl
  | cons d t ih =>
    cases hw : d.waketime with
    | none => simp [earlyBirdCount, setDate_waketime, hw, ih]
    | some hr => simp [earlyBirdCount, setDate_waketime, hw, ih]

theorem nightOwlCount_setDate (f : DayRecord → ℤ) (hist : List DayRecord) :
    nightOwlCount (hist.map (fun r => setDate r (f r))) = nightOwlCount hist := by
  induction hist with
  | nil => rfl
  | cons d t ih =>
    cases hw : d.bedtime with
    | none => simp [nightOwlCount, setDate_bedtime, hw, ih]
    | some hr => simp [nightOwlCount, setDate_bedtime, hw, ih]

theorem stepMasterHit_setDate (f : DayRecord → ℤ) (hist : List DayRecord) :
    stepMasterHit (hist.map (fun r => setDate r (f r))) = stepMasterHit hist := by
  induction hist with
  | nil => rfl
  | cons d t ih =>
    cases hs : d.step_count with
    | none => simp [stepMasterHit, setDate_step_count, hs]
    | some n => simp [stepMasterHit, setDate_step_count, hs, ih]

theorem zenCount_setDate (f : DayRecord → ℤ) (hist : List DayRecord) :
    zenCount (hist.map (fun r => setDate r (f r))) = zenCount hist := by
  induction hist with
  | nil => rfl
  | cons d t ih =>
    cases hb : d.balance_score with
    | none => simp [zenCount, setDate_balance_score, hb]
    | some n => simp [zenCount, setDate_balance_score, hb, ih]

theorem allOpt_setDate (p : DayRecord → Option Bool)
    (hp : ∀ r x, p (setDate r x) = p r) (f : DayRecord → ℤ)
    (hist : List DayRecord) :
    allOpt p (hist.map (fun r => setDate r (f r))) = allOpt p hist := by
  induction hist with
  | nil => rfl
  | cons d t ih =>
    cases hpd : p d with
    | none => simp [allOpt, hp, hpd]
    | some bb => cases bb <;> simp [allOpt, hp, hpd, ih]

/-! Hence none of the seven checks reads the date field. -/

theorem check_early_bird_setDate (now : ℤ) (f : DayRecord → ℤ)
    (hist : List DayRecord) :
    check_early_bird now (hist.map (fun r => setDate r (f r)))
      = check_early_bird now hist := by
  funext m
  unfold check_early_bird
  rw [earlyBirdCount_setDate]

theorem check_step_master_setDate (now : ℤ) (f : DayRecord → ℤ)
    (hist : List DayRecord) :
    check_step_master now (hist.map (fun r => setDate r (f r)))
      = check_step_master now hist := by
  funext m
  unfold check_step_master
  rw [stepMasterHit_setDate]

theorem check_study_buddy_setDate (now : ℤ) (f : DayRecord → ℤ)
    (hist : List DayRecord) :
    check_study_buddy now (hist.map (fun r => setDate r (f r)))
      = check_study_buddy now hist := by
  funext m
  unfold check_study_buddy
  rw [List.length_map, ← List.map_take, allOpt_setDate studyDayOk studyDayOk_setDate]

theorem check_zen_master_setDate (now : ℤ) (f : DayRecord → ℤ)
    (hist : List DayRecord) :
    check_zen_master now (hist.map (fun r => setDate r (f r)))
      = check_zen_master now hist := by
  funext m
  unfold check_zen_master
  rw [zenCount_setDate]

theorem check_night_owl_recovery_setDate (now : ℤ) (f : DayRecord → ℤ)
    (hist : List DayRecord) :
    check_night_owl_recovery now (hist.map (fun r => setDate r (f r)))
      = check_night_owl_recovery now hist := by
  funext m
  unfold check_night_owl_recovery
  rw [nightOwlCount_setDate]

theorem check_fitness_streak_setDate (now : ℤ) (f : DayRecord → ℤ)
    (hist : List DayRecord) :
    check_fitness_streak now (hist.map (fun r => setDate r (f r)))
      = check_fitness_streak now hist := by
  funext m
  unfold check_fitness_streak
  rw [List.length_map, ← List.map_take, allOpt_setDate fitnessDayOk fitnessDayOk_setDate]

theorem check_perfect_week_setDate (now : ℤ) (f : DayRecord → ℤ)
    (hist : List DayRecord) :
    check_perfect_week now (hist.map (fun r => setDate r (f r)))
      = check_perfect_week now hist := by
  funext m
  unfold check_perfect_week
  rw [List.length_map, ← List.map_take, allOpt_setDate perfectDayOk perfectDayOk_setDate]

theorem checksList_setDate (now : ℤ) (f : DayRecord → ℤ)
    (hist : List DayRecord) :
    checksList now (hist.map (fun r => setDate r (f r))) = checksList now hist := by
  unfold checksList
  rw [check_early_bird_setDate, check_step_master_setDate, check_study_buddy_setDate,
    check_zen_master_setDate, check_night_owl_recovery_setDate,
    check_fitness_streak_setDate, check_perfect_week_setDate]

/-- C3 counterexample input: the history [day dated 1, day dated 2] is not
sorted descending by date, yet the evaluation neither raises (the error
flag is false) nor stops: it runs to completion and even unlocks
step_master from the first day.  No InvalidInput failure exists. -/
theorem claim_C3_counterexample :
    specSortedDesc [dayStep10k, dayStep0] = false ∧
    (update_achievements 0 emptyStore [dayStep10k, dayStep0]).2 = false ∧
    ((update_achievements 0 emptyStore [dayStep10k, dayStep0]).1
      AchId.step_master).unlocked = true :=
  ⟨by decide, rfl, rfl⟩

/-- C3 amended: the evaluator never validates — or even reads — the dates:
reassigning every date arbitrarily (in particular producing a history that
is not sorted descending) leaves the entire evaluation result, including
its exception flag, unchanged.  Sort order is supplied by the descending
store query, not checked, and no InvalidInput error is ever raised. -/
theorem claim_C3_amended (now : ℤ) (store : AchId → Option AchState)
    (hist : List DayRecord) (f : DayRecord → ℤ) :
    update_achievements now store (hist.map (fun r => setDate r (f r)))
      = update_achievements now store hist := by
  cases hist with
  | nil => rfl
  | cons d t =>
    show runChecks (checksList now ((d :: t).map (fun r => setDate r (f r))))
        (init_user_achievements store)
      = runChecks (checksList now (d :: t)) (init_user_achievements store)
    rw [checksList_setDate]

end HostelPulse

namespace HostelPulse

/-! Decomposition of an exception-free run of the check sequence. -/

theorem runChecks_cons_ok (c : AchMap → Option AchMap)
    (cs : List (AchMap → Option AchMap)) (m mf : AchMap)
    (hr : runChecks (c :: cs) m = (mf, false)) :
    ∃ m1, c m = some m1 ∧ runChecks cs m1 = (mf, false) := by
  simp only [runChecks] at hr
  cases hc : c m with
  | none =>
    rw [hc] at hr
    simp at hr
  | some m1 =>
    rw [hc] at hr
    exact ⟨m1, rfl, hr⟩

theorem runChecks_nil_ok (m mf : AchMap)
    (hr : runChecks [] m = (mf, false)) : mf = m := by
  simp only [runChecks] at hr
  exact (congrArg Prod.fst hr).symm

/-! Each check writes only its own achievement row. -/

theorem check_early_bird_other (now : ℤ) (hist : List DayRecord)
    (m m1 : AchMap) (b : AchId) (hb : b ≠ AchId.early_bird)
    (hc : check_early_bird now hist m = some m1) : m1 b = m b := by
  unfold check_early_bird at hc
  injection hc with hc
  subst hc
  split_ifs
  · rw [unlock_achievement_other _ _ _ _ hb, update_achievement_progress_other _ _ _ _ hb]
  · rw [update_achievement_progress_other _ _ _ _ hb]

theorem check_step_master_other (now : ℤ) (hist : List DayRecord)
    (m m1 : AchMap) (b : AchId) (hb : b ≠ AchId.step_master)
    (hc : check_step_master now hist m = some m1) : m1 b = m b := by
  unfold check_step_master at hc
  split at hc
  · cases hc
  · injection hc with hc
    subst hc
    rw [unlock_achievement_other _ _ _ _ hb]
  · injection hc with hc
    subst hc
    rfl

theorem check_study_buddy_other (now : ℤ) (hist : List DayRecord)
    (m m1 : AchMap) (b : AchId) (hb : b ≠ AchId.study_buddy)
    (hc : check_study_buddy now hist m = some m1) : m1 b = m b := by
  unfold check_study_buddy at hc
  split at hc
  · injection hc with hc
    subst hc
    rfl
  · split at hc
    · cases hc
    · injection hc with hc
      subst hc
      rw [unlock_achievement_other _ _ _ _ hb]
    · injection hc with hc
      subst hc
      rfl

theorem check_zen_master_other (now : ℤ) (hist : List DayRecord)
    (m m1 : AchMap) (b : AchId) (hb : b ≠ AchId.zen_master)
    (hc : check_zen_master now hist m = some m1) : m1 b = m b := by
  unfold check_zen_master at hc
  split at hc
  · cases hc
  · injection hc with hc
    subst hc
    split_ifs
    · rw [unlock_achievement_other _ _ _ _ hb, update_achievement_progress_other _ _ _ _ hb]
    · rw [update_achievement_progress_other _ _ _ _ hb]

theorem check_night_owl_recovery_other (now : ℤ) (hist : List DayRecord)
    (m m1 : AchMap) (b : AchId) (hb : b ≠ AchId.night_owl_recovery)
    (hc : check_night_owl_recovery now hist m = some m1) : m1 b = m b := by
  unfold check_night_owl_recovery at hc
  injection hc with hc
  subst hc
  split_ifs
  · rw [unlock_achievement_other _ _ _ _ hb, update_achievement_progress_other _ _ _ _ hb]
  · rw [update_achievement_progress_other _ _ _ _ hb]

theorem check_fitness_streak_other (now : ℤ) (hist : List DayRecord)
    (m m1 : AchMap) (b : AchId) (hb : b ≠ AchId.fitness_streak)
    (hc : check_fitness_streak now hist m = some m1) : m1 b = m b := by
  unfold check_fitness_streak at hc
  split at hc
  · injection hc with hc
    subst hc
    rfl
  · split at hc
    · cases hc
    · injection hc with hc
      subst hc
      rw [unlock_achievement_other _ _ _ _ hb]
    · injection hc with hc
      subst hc
      rfl

theorem check_perfect_week_other (now : ℤ) (hist : List DayRecord)
    (m m1 : AchMap) (b : AchId) (hb : b ≠ AchId.perfect_week)
    (hc : check_perfect_week now hist m = some m1) : m1 b = m b := by
  unfold check_perfect_week at hc
  split at hc
  · injection hc with hc
    subst hc
    rfl
  · split at hc
    · cases hc
    · injection hc with hc
      subst hc
      rw [unlock_achievement_other _ _ _ _ hb]
    · injection hc with hc
      subst hc
      rfl

/-! When its criterion holds, each check stamps its own row with the
current time. -/

theorem check_early_bird_sets (now : ℤ) (hist : List DayRecord)
    (m m1 : AchMap) (hcrit : 5 ≤ earlyBirdCount hist)
    (hc : check_early_bird now hist m = some m1) :
    (m1 AchId.early_bird).unlocked = true ∧
    (m1 AchId.early_bird).unlocked_date = some now := by
  unfold check_early_bird at hc
  injection hc with hc
  subst hc
  rw [if_pos hcrit, unlock_achievement_same]
  exact ⟨rfl, rfl⟩

theorem check_step_master_sets (now : ℤ) (hist : List DayRecord)
    (m m1 : AchMap) (hcrit : stepMasterHit hist = some true)
    (hc : check_step_master now hist m = some m1) :
    (m1 AchId.step_master).unlocked = true ∧
    (m1 AchId.step_master).unlocked_date = some now := by
  unfold check_step_master at hc
  rw [hcrit] at hc
  injection hc with hc
  subst hc
  rw [unlock_achievement_same]
  exact ⟨rfl, rfl⟩

theorem check_study_buddy_sets (now : ℤ) (hist : List DayRecord)
    (m m1 : AchMap) (h7 : ¬ hist.length < 7)
    (hall : allOpt studyDayOk (hist.take 7) = some true)
    (hc : check_study_buddy now hist m = some m1) :
    (m1 AchId.study_buddy).unlocked = true ∧
    (m1 AchId.study_buddy).unlocked_date = some now := by
  unfold check_study_buddy at hc
  rw [if_neg h7, hall] at hc
  injection hc with hc
  subst hc
  rw [unlock_achievement_same]
  exact ⟨rfl, rfl⟩

theorem check_zen_master_sets (now : ℤ) (hist : List DayRecord)
    (m m1 : AchMap) (c : ℕ) (hz : zenCount hist = some c) (h3c : 3 ≤ c)
    (hc : check_zen_master now hist m = some m1) :
    (m1 AchId.zen_master).unlocked = true ∧
    (m1 AchId.zen_master).unlocked_date = some now := by
  unfold check_zen_master at hc
  rw [hz] at hc
  injection hc with hc
  subst hc
  rw [if_pos h3c, unlock_achievement_same]
  exact ⟨rfl, rfl⟩

theorem check_night_owl_recovery_sets (now : ℤ) (hist : List DayRecord)
    (m m1 : AchMap) (hcrit : 3 ≤ nightOwlCount hist)
    (hc : check_night_owl_recovery now hist m = some m1) :
    (m1 AchId.night_owl_recovery).unlocked = true ∧
    (m1 AchId.night_owl_recovery).unlocked_date = some now := by
  unfold check_night_owl_recovery at hc
  injection hc with hc
  subst hc
  rw [if_pos hcrit, unlock_achievement_same]
  exact ⟨rfl, rfl⟩

theorem check_fitness_streak_sets (now : ℤ) (hist : List DayRecord)
    (m m1 : AchMap) (h7 : ¬ hist.length < 7)
    (hall : allOpt fitnessDayOk (hist.take 7) = some true)
    (hc : check_fitness_streak now hist m = some m1) :
    (m1 AchId.fitness_streak).unlocked = true ∧
    (m1 AchId.fitness_streak).unlocked_date = some now := by
  unfold check_fitness_streak at hc
  rw [if_neg h7, hall] at hc
  injection hc with hc
  subst hc
  rw [unlock_achievement_same]
  exact ⟨rfl, rfl⟩

theorem check_perfect_week_sets (now : ℤ) (hist : List DayRecord)
    (m m1 : AchMap) (h7 : ¬ hist.length < 7)
    (hall : allOpt perfectDayOk (hist.take 7) = some true)
    (hc : check_perfect_week now hist m = some m1) :
    (m1 AchId.perfect_week).unlocked = true ∧
    (m1 AchId.perfect_week).unlocked_date = some now := by
  unfold check_perfect_week at hc
  rw [if_neg h7, hall] at hc
  injection hc with hc
  subst hc
  rw [unlock_achievement_same]
  exact ⟨rfl, rfl⟩

/-- C10: in any evaluation run that completes without an exception, every
achievement whose unlock condition holds on the history gets its
unlocked_date overwritten with the evaluation time — also when it was
already unlocked earlier, so unlocked_date records the latest satisfying
evaluation, not the first unlock. -/
theorem claim_C10_unlocked_date (now : ℤ) (store : AchId → Option AchState)
    (hist : List DayRecord) (a : AchId)
    (hok : (update_achievements now store hist).2 = false)
    (hcrit : achCriterion a hist = true) :
    ((update_achievements now store hist).1 a).unlocked = true ∧
    ((update_achievements now store hist).1 a).unlocked_date = some now := by
  cases hist with
  | nil =>
    cases a <;>
      simp [achCriterion, earlyBirdCount, stepMasterHit, zenCount,
        nightOwlCount, allOpt] at hcrit
  | cons d t =>
    have hrun : update_achievements now store (d :: t)
        = runChecks (checksList now (d :: t)) (init_user_achievements store) := rfl
    rw [hrun] at hok ⊢
    simp only [checksList] at hok ⊢
    have hmf : runChecks
        [check_early_bird now (d :: t), check_step_master now (d :: t),
         check_study_buddy now (d :: t), check_zen_master now (d :: t),
         check_night_owl_recovery now (d :: t), check_fitness_streak now (d :: t),
         check_perfect_week now (d :: t)] (init_user_achievements store)
        = ((runChecks
            [check_early_bird now (d :: t), check_step_master now (d :: t),
             check_study_buddy now (d :: t), check_zen_master now (d :: t),
             check_night_owl_recovery now (d :: t), check_fitness_streak now (d :: t),
             check_perfect_week now (d :: t)] (init_user_achievements store)).1,
           false) := by
      rw [← hok]
    obtain ⟨m1, hc1, hr1⟩ := runChecks_cons_ok _ _ _ _ hmf
    obtain ⟨m2, hc2, hr2⟩ := runChecks_cons_ok _ _ _ _ hr1
    obtain ⟨m3, hc3, hr3⟩ := runChecks_cons_ok _ _ _ _ hr2
    obtain ⟨m4, hc4, hr4⟩ := runChecks_cons_ok _ _ _ _ hr3
    obtain ⟨m5, hc5, hr5⟩ := runChecks_cons_ok _ _ _ _ hr4
    obtain ⟨m6, hc6, hr6⟩ := runChecks_cons_ok _ _ _ _ hr5
    obtain ⟨m7, hc7, hr7⟩ := runChecks_cons_ok _ _ _ _ hr6
    have hfin := runChecks_nil_ok _ _ hr7
    rw [hfin]
    cases a with
    | early_bird =>
      have hcr : 5 ≤ earlyBirdCount (d :: t) := by
        simpa [achCriterion] using hcrit
      have hset := check_early_bird_sets now (d :: t) _ _ hcr hc1
      rw [check_perfect_week_other now (d :: t) _ _ _ (by decide) hc7,
        check_fitness_streak_other now (d :: t) _ _ _ (by decide) hc6,
        check_night_owl_recovery_other now (d :: t) _ _ _ (by decide) hc5,
        check_zen_master_other now (d :: t) _ _ _ (by decide) hc4,
        check_study_buddy_other now (d :: t) _ _ _ (by decide) hc3,
        check_step_master_other now (d :: t) _ _ _ (by decide) hc2]
      exact hset
    | step_master =>
      have hcr : stepMasterHit (d :: t) = some true := by
        simpa [achCriterion] using hcrit
      have hset := check_step_master_sets now (d :: t) _ _ hcr hc2
      rw [check_perfect_week_other now (d :: t) _ _ _ (by decide) hc7,
        check_fitness_streak_other now (d :: t) _ _ _ (by decide) hc6,
        check_night_owl_recovery_other now (d :: t) _ _ _ (by decide) hc5,
        check_zen_master_other now (d :: t) _ _ _ (by decide) hc4,
        check_study_buddy_other now (d :: t) _ _ _ (by decide) hc3]
      exact hset
    | study_buddy =>
      have hcr := hcrit
      simp only [achCriterion, Bool.and_eq_true, decide_eq_true_eq,
        beq_iff_eq] at hcr
      have hset := check_study_buddy_sets now (d :: t) _ _
        (by omega) hcr.2 hc3
      rw [check_perfect_week_other now (d :: t) _ _ _ (by decide) hc7,
        check_fitness_streak_other now (d :: t) _ _ _ (by decide) hc6,
        check_night_owl_recovery_other now (d :: t) _ _ _ (by decide) hc5,
        check_zen_master_other now (d :: t) _ _ _ (by decide) hc4]
      exact hset
    | zen_master =>
      cases hz : zenCount (d :: t) with
      | none =>
        rw [achCriterion, hz] at hcrit
        cases hcrit
      | some c =>
        rw [achCriterion, hz] at hcrit
        have h3c : 3 ≤ c := by simpa using hcrit
        have hset := check_zen_master_sets now (d :: t) _ _ c hz h3c hc4
        rw [check_perfect_week_other now (d :: t) _ _ _ (by decide) hc7,
          check_fitness_streak_other now (d :: t) _ _ _ (by decide) hc6,
          check_night_owl_recovery_other now (d :: t) _ _ _ (by decide) hc5]
        exact hset
    | night_owl_recovery =>
      have hcr : 3 ≤ nightOwlCount (d :: t) := by
        simpa [achCriterion] using hcrit
      have hset := check_night_owl_recovery_sets now (d :: t) _ _ hcr hc5
      rw [check_perfect_week_other now (d :: t) _ _ _ (by decide) hc7,
        check_fitness_streak_other now (d :: t) _ _ _ (by decide) hc6]
      exact hset
    | fitness_streak =>
      have hcr := hcrit
      simp only [achCriterion, Bool.and_eq_true, decide_eq_true_eq,
        beq_iff_eq] at hcr
      have hset := check_fitness_streak_sets now (d :: t) _ _
        (by omega) hcr.2 hc6
      rw [check_perfect_week_other now (d :: t) _ _ _ (by decide) hc7]
      exact hset
    | perfect_week =>
      have hcr := hcrit
      simp only [achCriterion, Bool.and_eq_true, decide_eq_true_eq,
        beq_iff_eq] at hcr
      exact check_perfect_week_sets now (d :: t) _ _ (by omega) hcr.2 hc7

/-- C10 witness: step_master was already unlocked at time 2 with an old
date; a later evaluation at time 9 on a one-day history with 10000 steps
overwrites the date with 9. -/
theorem claim_C10_witness :
    ((update_achievements 9 storeUnlockedStep [dayStep10k]).1
        AchId.step_master).unlocked = true ∧
    ((update_achievements 9 storeUnlockedStep [dayStep10k]).1
        AchId.step_master).unlocked_date = some 9 :=
  claim_C10_unlocked_date 9 storeUnlockedStep [dayStep10k] AchId.step_master
    rfl rfl

end HostelPulse
